import Mathlib

/-!
A verification development for the Alumnium MCP server
(`packages/python/src/alumnium/mcp/server.py`).

The server keeps two module-level dictionaries, `_drivers` (driver handle ↦
(Alumni engine, raw driver)) and `_areas` (area handle ↦ Area), and dispatches
eleven tools through `call_tool`, which catches every handler exception and
renders it as a textual `Error: ...` payload.

Modelling decisions, each noted again at the definition it concerns:
* Handles and object identities are natural numbers drawn from a single
  monotone supply counter; `uuid.uuid4()` is modelled as minting the next
  number of that supply (a fresh 128-bit random identifier abstracted as a
  fresh counter value), rendered into payload text with `Nat.repr`.
* Python dictionaries are association lists with first-match lookup,
  replace-or-append insertion and key deletion.
* The automation engine (`Alumni`, `Area`), the Selenium/Appium constructors
  and the environment-configured model are external collaborators; their
  outcomes are oracle fields of a `World` record, so every theorem quantifies
  over all behaviours of the collaborators.
* Exceptions are the `Exc` type; a handler computes in
  `Except Exc String × St`, the state being returned on every path because a
  Python exception does not roll back earlier mutations of the global dicts.
* The state carries a trace of observable events: the transfer of control
  into a handler and every call on a raw driver or on the automation engine.
-/

/-- Argument values carried in a tool call: strings, booleans, and handles.
A handle travels as an opaque identifier (a uuid string in Python, a supply
number here). -/
inductive Val where
  | s (v : String)
  | b (v : Bool)
  | n (v : Nat)
deriving DecidableEq, Repr

/-- Rendering of a value into payload text, as Python string interpolation
does (`True`/`False` for booleans). -/
def Val.str : Val → String
  | .s v => v
  | .b true => "True"
  | .b false => "False"
  | .n v => Nat.repr v

/-- Python truthiness of a value, used by `if url:` in `_start_driver`. -/
def Val.truthy : Val → Bool
  | .s v => v != ""
  | .b v => v
  | .n v => v != 0

/-- An argument mapping of a tool call: name ↦ value. -/
abbrev Args := List (String × Val)

/-- The `Area` object returned by `al.area(description)`: its `driver` field
is the identity of the creating Alumni's internal driver wrapper, compared by
`_quit_driver` via `area.driver == al.driver`. -/
structure Area where
  driver : Nat
  description : String
deriving DecidableEq, Repr

/-- Python exceptions raised by the handlers or by the external collaborators.
`keyError k` is `KeyError(k)` from `args[k]` on a missing key. -/
inductive Exc where
  | keyError (k : String)
  | valueError (m : String)
  | notImplementedError (m : String)
  | assertionError (m : String)
  | other (m : String)
deriving DecidableEq, Repr

/-- A single-quote character, written via its code point to keep string
literals plain. -/
def squo : String := String.singleton (Char.ofNat 39)

/-- Python `str(e)` for each exception: `str(KeyError(k))` is the repr of the
key, i.e. the key surrounded by single quotes; the message otherwise. -/
def Exc.str : Exc → String
  | .keyError k => squo ++ k ++ squo
  | .valueError m => m
  | .notImplementedError m => m
  | .assertionError m => m
  | .other m => m

/-- Observable events of a dispatch: control transfer into a handler, raw
driver construction and teardown, navigation, and every automation-engine
call. -/
inductive Event where
  | enterHandler (name : String)
  | chromeConstruct
  | appiumConstruct
  | navigate (url : String)
  | engineDo (al : Nat) (goal : String)
  | engineCheck (al : Nat) (statement : String) (vision : Val)
  | engineGet (al : Nat) (data : String) (vision : Val)
  | engineArea (al : Nat) (description : String)
  | areaDo (a : Area) (goal : String)
  | areaCheck (a : Area) (statement : String) (vision : Val)
  | areaGet (a : Area) (data : String) (vision : Val)
  | treeRead (al : Nat)
  | engineQuit (al : Nat)
  | rawQuit (raw : Nat)
  | cacheSave (al : Nat)
deriving DecidableEq, Repr

/-- Behaviour of the external collaborators: the Selenium Chrome and Appium
constructors, `driver.get(url)`, and the automation engine bound to each
Alumni (keyed by its identity) or Area. A `some e` / `.error e` entry means
that call raises `e`; `none` / `.ok` means it succeeds. `provider` and
`modelName` are the environment-resolved model identity interpolated into the
`start_driver` success payload. -/
structure World where
  chromeFail : Option Exc
  navFail : String → Option Exc
  appiumFail : Option Exc
  doRes : Nat → String → Option Exc
  checkRes : Nat → String → Val → Except Exc String
  getRes : Nat → String → Val → Except Exc String
  areaFail : Nat → String → Option Exc
  areaDoRes : Area → String → Option Exc
  areaCheckRes : Area → String → Val → Except Exc String
  areaGetRes : Area → String → Val → Except Exc String
  treeRes : Nat → Except Exc String
  alQuitFail : Nat → Option Exc
  rawQuitFail : Nat → Option Exc
  cacheFail : Nat → Option Exc
  provider : String
  modelName : String

/-- Server state: the two module-level dictionaries `_drivers` (handle ↦
(Alumni identity, raw driver identity)) and `_areas` (handle ↦ Area), the
fresh-identity supply modelling `uuid.uuid4()` and object allocation, and the
event trace. -/
structure St where
  drivers : List (Nat × (Nat × Nat))
  areas : List (Nat × Area)
  supply : Nat
  trace : List Event
deriving DecidableEq, Repr

/-- Append one event to the trace. -/
def St.emit (s : St) (e : Event) : St := { s with trace := s.trace ++ [e] }

/-- Python dictionary assignment `d[k] = v`: replace in place when the key is
present, append otherwise. -/
def dinsert (k : Nat) (v : α) (l : List (Nat × α)) : List (Nat × α) :=
  if l.any (fun p => p.1 = k) then l.map (fun p => if p.1 = k then (k, v) else p)
  else l ++ [(k, v)]

/-- Python dictionary deletion `del d[k]`. -/
def ddel (k : Nat) (l : List (Nat × α)) : List (Nat × α) :=
  l.filter (fun p => p.1 ≠ k)

/-- Resolve a `driver_id` argument value against `_drivers`: only a handle
value that is a key of the dictionary resolves; the result carries the handle
and the stored (Alumni, raw driver) pair. -/
def resolveDriver (s : St) (v : Val) : Option (Nat × Nat × Nat) :=
  match v with
  | .n h => (s.drivers.lookup h).map (fun p => (h, p.1, p.2))
  | _ => none

/-- Resolve an `area_id` argument value against `_areas`. -/
def resolveArea (s : St) (v : Val) : Option (Nat × Area) :=
  match v with
  | .n h => (s.areas.lookup h).map (fun a => (h, a))
  | _ => none

/-- Lines 282-295 of `_start_driver`, the code common to the successful
construction branches: bind the raw driver to a fresh Alumni instance
(`Alumni(driver, model)`), mint a fresh driver handle (`str(uuid.uuid4())`,
modelled as the next supply number), store the pair in `_drivers` and return
the success payload. -/
def finishStart (W : World) (pv : Val) (raw : Nat) (s : St) : Except Exc String × St :=
  let al := s.supply
  let s := { s with supply := s.supply + 1 }
  let h := s.supply
  let s := { s with supply := s.supply + 1, drivers := dinsert h (al, raw) s.drivers }
  (.ok ("Driver started successfully. driver_id: " ++ Nat.repr h ++ "\nPlatform: "
      ++ pv.str ++ "\nModel: " ++ W.provider ++ "/" ++ W.modelName), s)

/-- `_start_driver`: select a construction strategy by the `platform`
argument. `chromium` constructs a Chrome connection and navigates when a
truthy `url` is given; `ios` constructs an Appium connection (the XCUITest
option and environment plumbing is folded into the constructor oracle, the
`url` serving as app path inside it); `android` raises `NotImplementedError`
before any construction; any other value raises `ValueError`. -/
def startDriverH (W : World) (args : Args) (s : St) : Except Exc String × St :=
  let s := s.emit (.enterHandler "start_driver")
  match args.lookup "platform" with
  | none => (.error (.keyError "platform"), s)
  | some pv =>
    let url := args.lookup "url"
    if pv = Val.s "chromium" then
      let s := s.emit .chromeConstruct
      match W.chromeFail with
      | some e => (.error e, s)
      | none =>
        let raw := s.supply
        let s := { s with supply := s.supply + 1 }
        match url with
        | some u =>
          if u.truthy then
            let s := s.emit (.navigate u.str)
            match W.navFail u.str with
            | some e => (.error e, s)
            | none => finishStart W pv raw s
          else finishStart W pv raw s
        | none => finishStart W pv raw s
    else if pv = Val.s "ios" then
      let s := s.emit .appiumConstruct
      match W.appiumFail with
      | some e => (.error e, s)
      | none =>
        let raw := s.supply
        let s := { s with supply := s.supply + 1 }
        finishStart W pv raw s
    else if pv = Val.s "android" then
      (.error (.notImplementedError ("Platform " ++ pv.str ++ " requires Appium setup. Not yet implemented.")), s)
    else
      (.error (.valueError ("Unsupported platform: " ++ pv.str)), s)

/-- `_alumnium_do`: read `driver_id` and `goal`, require a registered driver,
call `al.do(goal)`. -/
def alumniumDoH (W : World) (args : Args) (s : St) : Except Exc String × St :=
  let s := s.emit (.enterHandler "do")
  match args.lookup "driver_id" with
  | none => (.error (.keyError "driver_id"), s)
  | some dv =>
    match args.lookup "goal" with
    | none => (.error (.keyError "goal"), s)
    | some gv =>
      match resolveDriver s dv with
      | none => (.error (.valueError ("Driver " ++ dv.str ++ " not found. Call alumnium_start_driver first.")), s)
      | some (_, al, _) =>
        let s := s.emit (.engineDo al gv.str)
        match W.doRes al gv.str with
        | some e => (.error e, s)
        | none => (.ok ("Successfully executed: " ++ gv.str), s)

/-- `_alumnium_check`: read `driver_id`, `statement` and the optional
`vision` (default `False`), require a registered driver, call
`al.check(statement, vision=vision)`; an `AssertionError` is caught and
reported as `Result: False`, any other exception propagates. -/
def alumniumCheckH (W : World) (args : Args) (s : St) : Except Exc String × St :=
  let s := s.emit (.enterHandler "check")
  match args.lookup "driver_id" with
  | none => (.error (.keyError "driver_id"), s)
  | some dv =>
    match args.lookup "statement" with
    | none => (.error (.keyError "statement"), s)
    | some sv =>
      let vision := (args.lookup "vision").getD (Val.b false)
      match resolveDriver s dv with
      | none => (.error (.valueError ("Driver " ++ dv.str ++ " not found.")), s)
      | some (_, al, _) =>
        let s := s.emit (.engineCheck al sv.str vision)
        match W.checkRes al sv.str vision with
        | .ok expl =>
          (.ok ("Check finished: " ++ sv.str ++ "\nResult: True\nExplanation: " ++ expl), s)
        | .error (.assertionError m) =>
          (.ok ("Check finished: " ++ sv.str ++ "\nResult: False\nExplanation: " ++ m), s)
        | .error e => (.error e, s)

/-- `_alumnium_get`: read `driver_id`, `data` and the optional `vision`,
require a registered driver, call `al.get(data, vision=vision)`. -/
def alumniumGetH (W : World) (args : Args) (s : St) : Except Exc String × St :=
  let s := s.emit (.enterHandler "get")
  match args.lookup "driver_id" with
  | none => (.error (.keyError "driver_id"), s)
  | some dv =>
    match args.lookup "data" with
    | none => (.error (.keyError "data"), s)
    | some datv =>
      let vision := (args.lookup "vision").getD (Val.b false)
      match resolveDriver s dv with
      | none => (.error (.valueError ("Driver " ++ dv.str ++ " not found.")), s)
      | some (_, al, _) =>
        let s := s.emit (.engineGet al datv.str vision)
        match W.getRes al datv.str vision with
        | .error e => (.error e, s)
        | .ok r => (.ok ("Extracted data: " ++ r), s)

/-- `_alumnium_area`: read `driver_id` and `description`, require a
registered driver, call `al.area(description)` (the resulting Area's
`driver` field is the Alumni's internal driver identity), mint a fresh area
handle (`str(uuid.uuid4())`, modelled as the next supply number) and store
the Area in `_areas`. -/
def alumniumAreaH (W : World) (args : Args) (s : St) : Except Exc String × St :=
  let s := s.emit (.enterHandler "area")
  match args.lookup "driver_id" with
  | none => (.error (.keyError "driver_id"), s)
  | some dv =>
    match args.lookup "description" with
    | none => (.error (.keyError "description"), s)
    | some descv =>
      match resolveDriver s dv with
      | none => (.error (.valueError ("Driver " ++ dv.str ++ " not found.")), s)
      | some (_, al, _) =>
        let s := s.emit (.engineArea al descv.str)
        match W.areaFail al descv.str with
        | some e => (.error e, s)
        | none =>
          let aid := s.supply
          let s := { s with supply := s.supply + 1,
                            areas := dinsert aid ⟨al, descv.str⟩ s.areas }
          (.ok ("Area created successfully. area_id: " ++ Nat.repr aid
              ++ "\nDescription: " ++ descv.str), s)

/-- `_area_do`: read `area_id` and `goal`, require a registered area, call
`area.do(goal)`. -/
def areaDoH (W : World) (args : Args) (s : St) : Except Exc String × St :=
  let s := s.emit (.enterHandler "area_do")
  match args.lookup "area_id" with
  | none => (.error (.keyError "area_id"), s)
  | some av =>
    match args.lookup "goal" with
    | none => (.error (.keyError "goal"), s)
    | some gv =>
      match resolveArea s av with
      | none => (.error (.valueError ("Area " ++ av.str ++ " not found. Call alumnium_area first.")), s)
      | some (_, a) =>
        let s := s.emit (.areaDo a gv.str)
        match W.areaDoRes a gv.str with
        | some e => (.error e, s)
        | none => (.ok ("Successfully executed in area: " ++ gv.str), s)

/-- `_area_check`: read `area_id`, `statement` and the optional `vision`,
require a registered area, call `area.check(statement, vision=vision)`.
Unlike `_alumnium_check`, nothing is caught here: a failed verification
(`AssertionError`) propagates to the dispatcher. -/
def areaCheckH (W : World) (args : Args) (s : St) : Except Exc String × St :=
  let s := s.emit (.enterHandler "area_check")
  match args.lookup "area_id" with
  | none => (.error (.keyError "area_id"), s)
  | some av =>
    match args.lookup "statement" with
    | none => (.error (.keyError "statement"), s)
    | some sv =>
      let vision := (args.lookup "vision").getD (Val.b false)
      match resolveArea s av with
      | none => (.error (.valueError ("Area " ++ av.str ++ " not found.")), s)
      | some (_, a) =>
        let s := s.emit (.areaCheck a sv.str vision)
        match W.areaCheckRes a sv.str vision with
        | .error e => (.error e, s)
        | .ok expl => (.ok ("Check passed: " ++ sv.str ++ "\nExplanation: " ++ expl), s)

/-- `_area_get`: read `area_id`, `data` and the optional `vision`, require a
registered area, call `area.get(data, vision=vision)`. -/
def areaGetH (W : World) (args : Args) (s : St) : Except Exc String × St :=
  let s := s.emit (.enterHandler "area_get")
  match args.lookup "area_id" with
  | none => (.error (.keyError "area_id"), s)
  | some av =>
    match args.lookup "data" with
    | none => (.error (.keyError "data"), s)
    | some datv =>
      let vision := (args.lookup "vision").getD (Val.b false)
      match resolveArea s av with
      | none => (.error (.valueError ("Area " ++ av.str ++ " not found.")), s)
      | some (_, a) =>
        let s := s.emit (.areaGet a datv.str vision)
        match W.areaGetRes a datv.str vision with
        | .error e => (.error e, s)
        | .ok r => (.ok ("Extracted data: " ++ r), s)

/-- `_get_accessibility_tree`: read `driver_id`, require a registered driver,
read `al.driver.accessibility_tree.to_str()`. -/
def getAccessibilityTreeH (W : World) (args : Args) (s : St) : Except Exc String × St :=
  let s := s.emit (.enterHandler "get_accessibility_tree")
  match args.lookup "driver_id" with
  | none => (.error (.keyError "driver_id"), s)
  | some dv =>
    match resolveDriver s dv with
    | none => (.error (.valueError ("Driver " ++ dv.str ++ " not found.")), s)
    | some (_, al, _) =>
      let s := s.emit (.treeRead al)
      match W.treeRes al with
      | .error e => (.error e, s)
      | .ok t => (.ok ("Accessibility Tree:\n" ++ t), s)

/-- `_quit_driver`: read `driver_id`, require a registered driver, call
`al.quit()` then `driver.quit()`, delete from `_areas` every entry whose
Area's `driver` equals `al.driver` (the cascading teardown scan), and
finally delete the driver entry itself. -/
def quitDriverH (W : World) (args : Args) (s : St) : Except Exc String × St :=
  let s := s.emit (.enterHandler "quit_driver")
  match args.lookup "driver_id" with
  | none => (.error (.keyError "driver_id"), s)
  | some dv =>
    match resolveDriver s dv with
    | none => (.error (.valueError ("Driver " ++ dv.str ++ " not found.")), s)
    | some (h, al, raw) =>
      let s := s.emit (.engineQuit al)
      match W.alQuitFail al with
      | some e => (.error e, s)
      | none =>
        let s := s.emit (.rawQuit raw)
        match W.rawQuitFail raw with
        | some e => (.error e, s)
        | none =>
          let s := { s with areas := s.areas.filter (fun q => ¬ q.2.driver = al) }
          let s := { s with drivers := ddel h s.drivers }
          (.ok ("Driver " ++ dv.str ++ " closed successfully"), s)

/-- `_save_cache`: read `driver_id`, require a registered driver, call
`al.cache.save()`. -/
def saveCacheH (W : World) (args : Args) (s : St) : Except Exc String × St :=
  let s := s.emit (.enterHandler "save_cache")
  match args.lookup "driver_id" with
  | none => (.error (.keyError "driver_id"), s)
  | some dv =>
    match resolveDriver s dv with
    | none => (.error (.valueError ("Driver " ++ dv.str ++ " not found.")), s)
    | some (_, al, _) =>
      let s := s.emit (.cacheSave al)
      match W.cacheFail al with
      | some e => (.error e, s)
      | none => (.ok ("Cache saved successfully for driver " ++ dv.str), s)

/-- The body of `call_tool` before its `except` clause: route the tool name
to its handler, raising `ValueError` for an unknown name. There is no
argument-validation step here; the handlers read their own arguments. -/
def tryCallTool (W : World) (name : String) (args : Args) (s : St) : Except Exc String × St :=
  match name with
  | "start_driver" => startDriverH W args s
  | "do" => alumniumDoH W args s
  | "check" => alumniumCheckH W args s
  | "get" => alumniumGetH W args s
  | "area" => alumniumAreaH W args s
  | "area_do" => areaDoH W args s
  | "area_check" => areaCheckH W args s
  | "area_get" => areaGetH W args s
  | "get_accessibility_tree" => getAccessibilityTreeH W args s
  | "quit_driver" => quitDriverH W args s
  | "save_cache" => saveCacheH W args s
  | _ => (.error (.valueError ("Unknown tool: " ++ name)), s)

/-- `call_tool`: dispatch and catch. Every exception a handler raises is
converted into the textual payload `Error: str(e)`; the return type `String`
(one text content item) shows that no exception escapes the dispatcher. -/
def callTool (W : World) (name : String) (args : Args) (s : St) : String × St :=
  match tryCallTool W name args s with
  | (.ok t, s) => (t, s)
  | (.error e, s) => ("Error: " ++ e.str, s)

/-- One advertised tool of `list_tools`: name, description, the schema's
property names and its required list. -/
structure ToolDef where
  name : String
  description : String
  properties : List String
  required : List String
deriving DecidableEq, Repr

/-- The static tool catalogue returned by `list_tools`, in source order. -/
def listTools : List ToolDef :=
  [⟨"start_driver",
    "Initialize a browser driver for automated testing. Returns a driver_id for use in other calls.",
    ["platform", "url"], ["platform"]⟩,
   ⟨"do",
    "Execute a goal using natural language (e.g., 'click login button', 'fill out the form'). Alumnium will plan and execute the necessary steps.",
    ["driver_id", "goal"], ["driver_id", "goal"]⟩,
   ⟨"check",
    "Verify a statement is true about the current page. Raises error if false. Returns explanation.",
    ["driver_id", "statement", "vision"], ["driver_id", "statement"]⟩,
   ⟨"get",
    "Extract data from the page (e.g., 'user name', 'product prices', 'item count'). Returns the extracted data.",
    ["driver_id", "data", "vision"], ["driver_id", "data"]⟩,
   ⟨"area",
    "Create a scoped area for focused operations (e.g., 'navigation sidebar', 'product grid'). Returns area_id for use with area_* tools.",
    ["driver_id", "description"], ["driver_id", "description"]⟩,
   ⟨"area_do",
    "Execute a goal within a scoped area. Same as alumnium_do but limited to the specified area.",
    ["area_id", "goal"], ["area_id", "goal"]⟩,
   ⟨"area_check",
    "Verify a statement within a scoped area.",
    ["area_id", "statement", "vision"], ["area_id", "statement"]⟩,
   ⟨"area_get",
    "Extract data from a scoped area.",
    ["area_id", "data", "vision"], ["area_id", "data"]⟩,
   ⟨"get_accessibility_tree",
    "Get structured representation of current page for debugging. Useful for understanding page structure.",
    ["driver_id"], ["driver_id"]⟩,
   ⟨"quit_driver",
    "Close browser/app and cleanup driver resources.",
    ["driver_id"], ["driver_id"]⟩,
   ⟨"save_cache",
    "Save the Alumnium cache for a driver session. This persists learned interactions for future use.",
    ["driver_id"], ["driver_id"]⟩]

/-- The first required argument of a tool absent from an argument mapping. -/
def firstMissing (required : List String) (args : Args) : Option String :=
  required.find? (fun f => (args.lookup f).isNone)

/-- Well-formedness of a server state, true of every state the server can
reach: all registered handles were minted below the current supply value and
each dictionary has no duplicate keys. -/
def St.WF (s : St) : Prop :=
  (∀ p ∈ s.drivers, p.1 < s.supply) ∧ (∀ p ∈ s.areas, p.1 < s.supply) ∧
    (s.drivers.map Prod.fst).Nodup ∧ (s.areas.map Prod.fst).Nodup

instance (s : St) : Decidable s.WF := by
  unfold St.WF; infer_instance

/-- A benign world: all external collaborators succeed. -/
def W0 : World where
  chromeFail := none
  navFail := fun _ => none
  appiumFail := none
  doRes := fun _ _ => none
  checkRes := fun _ _ _ => .ok "looks right"
  getRes := fun _ _ _ => .ok "42"
  areaFail := fun _ _ => none
  areaDoRes := fun _ _ => none
  areaCheckRes := fun _ _ _ => .ok "looks right"
  areaGetRes := fun _ _ _ => .ok "42"
  treeRes := fun _ => .ok "root"
  alQuitFail := fun _ => none
  rawQuitFail := fun _ => none
  cacheFail := fun _ => none
  provider := "anthropic"
  modelName := "claude-haiku-4-5-20251001"

/-- A world whose verification calls fail with an `AssertionError`. -/
def Wassert : World :=
  { W0 with checkRes := fun _ _ _ => .error (.assertionError "statement is false")
            areaCheckRes := fun _ _ _ => .error (.assertionError "statement is false") }

/-- The empty initial state. -/
def st0 : St := ⟨[], [], 0, []⟩

/-- A state with one driver session (handle 0, Alumni 1, raw driver 2) and
one area (handle 3) derived from it. -/
def st1 : St := ⟨[(0, (1, 2))], [(3, ⟨1, "header"⟩)], 4, []⟩

/-! ### Association-list lemmas -/

lemma lookup_none_of_forall {α : Type} {l : List (Nat × α)} {k : Nat}
    (h : ∀ p ∈ l, p.1 ≠ k) : l.lookup k = none := by
  induction l with
  | nil => rfl
  | cons p t ih =>
    obtain ⟨k', v⟩ := p
    have hk : k ≠ k' := fun he => (h (k', v) (List.mem_cons_self _ _)) he.symm
    rw [List.lookup_cons, beq_false_of_ne hk]
    exact ih (fun q hq => h q (List.mem_cons_of_mem _ hq))

lemma mem_of_lookup_eq_some {α : Type} {l : List (Nat × α)} {k : Nat} {v : α}
    (h : l.lookup k = some v) : (k, v) ∈ l := by
  induction l with
  | nil => simp [List.lookup] at h
  | cons p t ih =>
    obtain ⟨k', w⟩ := p
    rw [List.lookup_cons] at h
    by_cases he : k = k'
    · subst he
      rw [beq_self_eq_true] at h
      simp at h
      subst h
      exact List.mem_cons_self _ _
    · rw [beq_false_of_ne he] at h
      exact List.mem_cons_of_mem _ (ih h)

lemma lookup_append_single {α : Type} {l : List (Nat × α)} {k : Nat} (v : α)
    (h : ∀ p ∈ l, p.1 ≠ k) : (l ++ [(k, v)]).lookup k = some v := by
  induction l with
  | nil => simp [List.lookup]
  | cons p t ih =>
    obtain ⟨k', w⟩ := p
    have hk : k ≠ k' := fun he => (h (k', w) (List.mem_cons_self _ _)) he.symm
    rw [List.cons_append, List.lookup_cons, beq_false_of_ne hk]
    exact ih (fun q hq => h q (List.mem_cons_of_mem _ hq))

lemma dinsert_eq_append {α : Type} {l : List (Nat × α)} {k : Nat} (v : α)
    (h : ∀ p ∈ l, p.1 ≠ k) : dinsert k v l = l ++ [(k, v)] := by
  have hany : l.any (fun p => p.1 = k) = false := by
    rw [List.any_eq_false]
    intro p hp
    simpa using h p hp
  unfold dinsert
  rw [hany]
  simp

lemma lookup_ddel_self {α : Type} (l : List (Nat × α)) (k : Nat) :
    (ddel k l).lookup k = none := by
  apply lookup_none_of_forall
  intro p hp
  unfold ddel at hp
  have := List.of_mem_filter hp
  simpa using this

lemma lookup_filter_eq_none {α : Type} {l : List (Nat × α)} {k : Nat} {a : α}
    (q : Nat × α → Bool) (hnd : (l.map Prod.fst).Nodup)
    (hl : l.lookup k = some a) (hq : q (k, a) = false) :
    (l.filter q).lookup k = none := by
  induction l with
  | nil => simp [List.lookup] at hl
  | cons p t ih =>
    obtain ⟨k', w⟩ := p
    rw [List.map_cons, List.nodup_cons] at hnd
    by_cases he : k = k'
    · subst he
      rw [List.lookup_cons, beq_self_eq_true] at hl
      simp at hl
      subst hl
      rw [List.filter_cons, hq, if_neg (by decide)]
      apply lookup_none_of_forall
      intro r hr
      have hm : r ∈ t := List.mem_of_mem_filter hr
      intro hrk
      have hr1 : r.1 ∈ List.map Prod.fst t := List.mem_map_of_mem Prod.fst hm
      rw [hrk] at hr1
      exact hnd.1 hr1
    · rw [List.lookup_cons, beq_false_of_ne he] at hl
      have htail := ih hnd.2 hl
      rw [List.filter_cons]
      by_cases hkeep : q (k', w) = true
      · rw [if_pos hkeep, List.lookup_cons, beq_false_of_ne he]
        exact htail
      · rw [if_neg hkeep]
        exact htail

lemma countP_append_single {α : Type} {l : List (Nat × α)} {k : Nat} (v : α)
    (h : ∀ p ∈ l, p.1 ≠ k) :
    (l ++ [(k, v)]).countP (fun q => q.1 = k) = 1 := by
  rw [List.countP_append]
  have hz : l.countP (fun q => q.1 = k) = 0 := by
    rw [List.countP_eq_zero]
    intro p hp
    simpa using h p hp
  simp [hz, List.countP_cons]

/-! ### Stale-handle rejection, one lemma per handler

Each lemma says: with full arguments but an unregistered handle, the handler
raises the not-found `ValueError` naming the handle, and the resulting state
is the caller's state with only the handler-entry event appended — so the
registries are untouched and no driver/engine call was made. -/

lemma notFound_do (W : World) (s : St) (h : Nat) (g : Val)
    (hd : s.drivers.lookup h = none) :
    tryCallTool W "do" [("driver_id", Val.n h), ("goal", g)] s =
      (.error (.valueError ("Driver " ++ Nat.repr h ++ " not found. Call alumnium_start_driver first.")),
       s.emit (.enterHandler "do")) := by
  simp [tryCallTool, alumniumDoH, resolveDriver, hd, Val.str, St.emit, List.lookup]

lemma notFound_check (W : World) (s : St) (h : Nat) (sv : Val)
    (hd : s.drivers.lookup h = none) :
    tryCallTool W "check" [("driver_id", Val.n h), ("statement", sv)] s =
      (.error (.valueError ("Driver " ++ Nat.repr h ++ " not found.")),
       s.emit (.enterHandler "check")) := by
  simp [tryCallTool, alumniumCheckH, resolveDriver, hd, Val.str, St.emit, List.lookup]

lemma notFound_get (W : World) (s : St) (h : Nat) (dv : Val)
    (hd : s.drivers.lookup h = none) :
    tryCallTool W "get" [("driver_id", Val.n h), ("data", dv)] s =
      (.error (.valueError ("Driver " ++ Nat.repr h ++ " not found.")),
       s.emit (.enterHandler "get")) := by
  simp [tryCallTool, alumniumGetH, resolveDriver, hd, Val.str, St.emit, List.lookup]

lemma notFound_area (W : World) (s : St) (h : Nat) (dv : Val)
    (hd : s.drivers.lookup h = none) :
    tryCallTool W "area" [("driver_id", Val.n h), ("description", dv)] s =
      (.error (.valueError ("Driver " ++ Nat.repr h ++ " not found.")),
       s.emit (.enterHandler "area")) := by
  simp [tryCallTool, alumniumAreaH, resolveDriver, hd, Val.str, St.emit, List.lookup]

lemma notFound_tree (W : World) (s : St) (h : Nat)
    (hd : s.drivers.lookup h = none) :
    tryCallTool W "get_accessibility_tree" [("driver_id", Val.n h)] s =
      (.error (.valueError ("Driver " ++ Nat.repr h ++ " not found.")),
       s.emit (.enterHandler "get_accessibility_tree")) := by
  simp [tryCallTool, getAccessibilityTreeH, resolveDriver, hd, Val.str, St.emit, List.lookup]

lemma notFound_quit (W : World) (s : St) (h : Nat)
    (hd : s.drivers.lookup h = none) :
    tryCallTool W "quit_driver" [("driver_id", Val.n h)] s =
      (.error (.valueError ("Driver " ++ Nat.repr h ++ " not found.")),
       s.emit (.enterHandler "quit_driver")) := by
  simp [tryCallTool, quitDriverH, resolveDriver, hd, Val.str, St.emit, List.lookup]

lemma notFound_save (W : World) (s : St) (h : Nat)
    (hd : s.drivers.lookup h = none) :
    tryCallTool W "save_cache" [("driver_id", Val.n h)] s =
      (.error (.valueError ("Driver " ++ Nat.repr h ++ " not found.")),
       s.emit (.enterHandler "save_cache")) := by
  simp [tryCallTool, saveCacheH, resolveDriver, hd, Val.str, St.emit, List.lookup]

lemma notFound_areaDo (W : World) (s : St) (h : Nat) (g : Val)
    (ha : s.areas.lookup h = none) :
    tryCallTool W "area_do" [("area_id", Val.n h), ("goal", g)] s =
      (.error (.valueError ("Area " ++ Nat.repr h ++ " not found. Call alumnium_area first.")),
       s.emit (.enterHandler "area_do")) := by
  simp [tryCallTool, areaDoH, resolveArea, ha, Val.str, St.emit, List.lookup]

lemma notFound_areaCheck (W : World) (s : St) (h : Nat) (sv : Val)
    (ha : s.areas.lookup h = none) :
    tryCallTool W "area_check" [("area_id", Val.n h), ("statement", sv)] s =
      (.error (.valueError ("Area " ++ Nat.repr h ++ " not found.")),
       s.emit (.enterHandler "area_check")) := by
  simp [tryCallTool, areaCheckH, resolveArea, ha, Val.str, St.emit, List.lookup]

lemma notFound_areaGet (W : World) (s : St) (h : Nat) (dv : Val)
    (ha : s.areas.lookup h = none) :
    tryCallTool W "area_get" [("area_id", Val.n h), ("data", dv)] s =
      (.error (.valueError ("Area " ++ Nat.repr h ++ " not found.")),
       s.emit (.enterHandler "area_get")) := by
  simp [tryCallTool, areaGetH, resolveArea, ha, Val.str, St.emit, List.lookup]

/-! ### Claim theorems -/

/-- C2: for every handle `h` not currently registered, every dispatched
operation that references `h` — do, check, get, area, area_do, area_check,
area_get, get_accessibility_tree, quit_driver, save_cache — fails with a
not-found error naming `h`, the failure is raised before any side-effecting
call on the driver or automation engine (the resulting state is the input
state with only the handler-entry event appended to the trace), and the
registry maps `_drivers` and `_areas` are unchanged. -/
theorem c2_stale_handle_rejected (W : World) (s : St) (h : Nat)
    (g sv dat descv ag asv adat : Val)
    (hd : s.drivers.lookup h = none) (ha : s.areas.lookup h = none) :
    tryCallTool W "do" [("driver_id", Val.n h), ("goal", g)] s =
      (.error (.valueError ("Driver " ++ Nat.repr h ++ " not found. Call alumnium_start_driver first.")),
       s.emit (.enterHandler "do")) ∧
    tryCallTool W "check" [("driver_id", Val.n h), ("statement", sv)] s =
      (.error (.valueError ("Driver " ++ Nat.repr h ++ " not found.")),
       s.emit (.enterHandler "check")) ∧
    tryCallTool W "get" [("driver_id", Val.n h), ("data", dat)] s =
      (.error (.valueError ("Driver " ++ Nat.repr h ++ " not found.")),
       s.emit (.enterHandler "get")) ∧
    tryCallTool W "area" [("driver_id", Val.n h), ("description", descv)] s =
      (.error (.valueError ("Driver " ++ Nat.repr h ++ " not found.")),
       s.emit (.enterHandler "area")) ∧
    tryCallTool W "get_accessibility_tree" [("driver_id", Val.n h)] s =
      (.error (.valueError ("Driver " ++ Nat.repr h ++ " not found.")),
       s.emit (.enterHandler "get_accessibility_tree")) ∧
    tryCallTool W "quit_driver" [("driver_id", Val.n h)] s =
      (.error (.valueError ("Driver " ++ Nat.repr h ++ " not found.")),
       s.emit (.enterHandler "quit_driver")) ∧
    tryCallTool W "save_cache" [("driver_id", Val.n h)] s =
      (.error (.valueError ("Driver " ++ Nat.repr h ++ " not found.")),
       s.emit (.enterHandler "save_cache")) ∧
    tryCallTool W "area_do" [("area_id", Val.n h), ("goal", ag)] s =
      (.error (.valueError ("Area " ++ Nat.repr h ++ " not found. Call alumnium_area first.")),
       s.emit (.enterHandler "area_do")) ∧
    tryCallTool W "area_check" [("area_id", Val.n h), ("statement", asv)] s =
      (.error (.valueError ("Area " ++ Nat.repr h ++ " not found.")),
       s.emit (.enterHandler "area_check")) ∧
    tryCallTool W "area_get" [("area_id", Val.n h), ("data", adat)] s =
      (.error (.valueError ("Area " ++ Nat.repr h ++ " not found.")),
       s.emit (.enterHandler "area_get")) :=
  ⟨notFound_do W s h g hd, notFound_check W s h sv hd, notFound_get W s h dat hd,
   notFound_area W s h descv hd, notFound_tree W s h hd, notFound_quit W s h hd,
   notFound_save W s h hd, notFound_areaDo W s h ag ha, notFound_areaCheck W s h asv ha,
   notFound_areaGet W s h adat ha⟩

/-- Witness for C2 at a concrete input: handle 99 is registered in neither
dictionary of `st1`, and every operation referencing it fails as stated. -/
theorem c2_stale_handle_rejected_witness :
    st1.drivers.lookup 99 = none ∧ st1.areas.lookup 99 = none ∧
    (tryCallTool W0 "do" [("driver_id", Val.n 99), ("goal", Val.s "click")] st1 =
      (.error (.valueError ("Driver " ++ Nat.repr 99 ++ " not found. Call alumnium_start_driver first.")),
       st1.emit (.enterHandler "do")) ∧
    tryCallTool W0 "check" [("driver_id", Val.n 99), ("statement", Val.s "ok")] st1 =
      (.error (.valueError ("Driver " ++ Nat.repr 99 ++ " not found.")),
       st1.emit (.enterHandler "check")) ∧
    tryCallTool W0 "get" [("driver_id", Val.n 99), ("data", Val.s "count")] st1 =
      (.error (.valueError ("Driver " ++ Nat.repr 99 ++ " not found.")),
       st1.emit (.enterHandler "get")) ∧
    tryCallTool W0 "area" [("driver_id", Val.n 99), ("description", Val.s "nav")] st1 =
      (.error (.valueError ("Driver " ++ Nat.repr 99 ++ " not found.")),
       st1.emit (.enterHandler "area")) ∧
    tryCallTool W0 "get_accessibility_tree" [("driver_id", Val.n 99)] st1 =
      (.error (.valueError ("Driver " ++ Nat.repr 99 ++ " not found.")),
       st1.emit (.enterHandler "get_accessibility_tree")) ∧
    tryCallTool W0 "quit_driver" [("driver_id", Val.n 99)] st1 =
      (.error (.valueError ("Driver " ++ Nat.repr 99 ++ " not found.")),
       st1.emit (.enterHandler "quit_driver")) ∧
    tryCallTool W0 "save_cache" [("driver_id", Val.n 99)] st1 =
      (.error (.valueError ("Driver " ++ Nat.repr 99 ++ " not found.")),
       st1.emit (.enterHandler "save_cache")) ∧
    tryCallTool W0 "area_do" [("area_id", Val.n 99), ("goal", Val.s "click")] st1 =
      (.error (.valueError ("Area " ++ Nat.repr 99 ++ " not found. Call alumnium_area first.")),
       st1.emit (.enterHandler "area_do")) ∧
    tryCallTool W0 "area_check" [("area_id", Val.n 99), ("statement", Val.s "ok")] st1 =
      (.error (.valueError ("Area " ++ Nat.repr 99 ++ " not found.")),
       st1.emit (.enterHandler "area_check")) ∧
    tryCallTool W0 "area_get" [("area_id", Val.n 99), ("data", Val.s "count")] st1 =
      (.error (.valueError ("Area " ++ Nat.repr 99 ++ " not found.")),
       st1.emit (.enterHandler "area_get"))) :=
  ⟨rfl, rfl,
   c2_stale_handle_rejected W0 st1 99 (Val.s "click") (Val.s "ok") (Val.s "count")
     (Val.s "nav") (Val.s "click") (Val.s "ok") (Val.s "count") rfl rfl⟩

/-- C3: for every tool name and argument mapping, dispatch returns a textual
payload; every exception a handler (or the automation engine inside it)
raises is caught at the `call_tool` boundary and converted into the textual
failure payload `Error: str(e)` carrying the failure's description. The total
return type of `callTool` (a payload and a state, never an exception) shows
no failure propagates past the single call. -/
theorem c3_failures_converted_to_payload (W : World) (name : String) (args : Args)
    (s s' : St) (e : Exc) (he : tryCallTool W name args s = (.error e, s')) :
    callTool W name args s = ("Error: " ++ e.str, s') := by
  unfold callTool
  rw [he]

/-- Witness for C3 at a concrete input: an unknown tool name raises
`ValueError`, which the dispatcher converts into an `Error:` payload. -/
theorem c3_failures_converted_to_payload_witness :
    tryCallTool W0 "bogus" [] st0 = (.error (.valueError "Unknown tool: bogus"), st0) ∧
    callTool W0 "bogus" [] st0 = ("Error: " ++ (Exc.valueError "Unknown tool: bogus").str, st0) :=
  ⟨rfl, c3_failures_converted_to_payload W0 "bogus" [] st0 st0 _ rfl⟩

/-- C8 counterexample: the claim says capability discovery advertises a tool
named `get_debug_tree`; in the code no advertised tool bears that name (the
debugging tool is advertised as `get_accessibility_tree`). -/
theorem c8_no_get_debug_tree :
    listTools.all (fun t => t.name != "get_debug_tree") = true := rfl

/-- C8 as amended: capability discovery returns one ToolDefinition per
catalogue row, whose names and required arguments are exactly the following
— in particular the debugging tool is named `get_accessibility_tree` (not
`get_debug_tree`) and its only required argument is the driver handle. -/
theorem c8_catalogue_names_and_required :
    listTools.map (fun t => (t.name, t.required)) =
      [("start_driver", ["platform"]),
       ("do", ["driver_id", "goal"]),
       ("check", ["driver_id", "statement"]),
       ("get", ["driver_id", "data"]),
       ("area", ["driver_id", "description"]),
       ("area_do", ["area_id", "goal"]),
       ("area_check", ["area_id", "statement"]),
       ("area_get", ["area_id", "data"]),
       ("get_accessibility_tree", ["driver_id"]),
       ("quit_driver", ["driver_id"]),
       ("save_cache", ["driver_id"])] := rfl

/-- C5: `start_driver` selects a driver-construction strategy by platform
kind: the android kind fails fast with a descriptive not-implemented error
without attempting construction (no construction event is recorded and the
state gains only the handler-entry event), any other kind outside the
supported set fails with an unsupported-platform error, and whenever
`start_driver` fails for any reason — including raw-driver construction
failure — no DriverSession is registered and no handle is returned (both
registries are exactly as before the call). -/
theorem c5_platform_strategy_and_atomic_construction :
    (∀ (W : World) (s : St) (args : Args),
       args.lookup "platform" = some (Val.s "android") →
       tryCallTool W "start_driver" args s =
         (.error (.notImplementedError "Platform android requires Appium setup. Not yet implemented."),
          s.emit (.enterHandler "start_driver"))) ∧
    (∀ (W : World) (s : St) (args : Args) (p : Val),
       args.lookup "platform" = some p →
       p ≠ Val.s "chromium" → p ≠ Val.s "ios" → p ≠ Val.s "android" →
       tryCallTool W "start_driver" args s =
         (.error (.valueError ("Unsupported platform: " ++ p.str)),
          s.emit (.enterHandler "start_driver"))) ∧
    (∀ (W : World) (s : St) (args : Args) (e : Exc) (s' : St),
       tryCallTool W "start_driver" args s = (.error e, s') →
       s'.drivers = s.drivers ∧ s'.areas = s.areas) := by
  refine ⟨?_, ?_, ?_⟩
  · intro W s args hp
    simp [tryCallTool, startDriverH, hp, Val.str]
  · intro W s args p hp h1 h2 h3
    simp [tryCallTool, startDriverH, hp, h1, h2, h3]
  · intro W s args e s' he
    have h0 : tryCallTool W "start_driver" args s = startDriverH W args s := rfl
    rw [h0] at he
    unfold startDriverH at he
    repeat' split at he
    all_goals try (cases hu : List.lookup "url" args <;> simp only [hu] at he)
    all_goals try (repeat' split at he)
    all_goals
      first
        | (simp only [Prod.mk.injEq] at he
           obtain ⟨-, rfl⟩ := he
           exact ⟨rfl, rfl⟩)
        | (exfalso; revert he; simp [finishStart])

/-- Witness for C5 at concrete inputs: android fails fast, an unknown
platform `windows` is rejected, and the construction-free failure of a call
with no platform argument leaves the registries unchanged. -/
theorem c5_platform_strategy_witness :
    ([("platform", Val.s "android")] : Args).lookup "platform" = some (Val.s "android") ∧
    tryCallTool W0 "start_driver" [("platform", Val.s "android")] st0 =
      (.error (.notImplementedError "Platform android requires Appium setup. Not yet implemented."),
       st0.emit (.enterHandler "start_driver")) ∧
    tryCallTool W0 "start_driver" [("platform", Val.s "windows")] st0 =
      (.error (.valueError ("Unsupported platform: " ++ (Val.s "windows").str)),
       st0.emit (.enterHandler "start_driver")) ∧
    tryCallTool W0 "start_driver" [] st0 =
      (.error (.keyError "platform"), st0.emit (.enterHandler "start_driver")) ∧
    ((st0.emit (.enterHandler "start_driver")).drivers = st0.drivers ∧
     (st0.emit (.enterHandler "start_driver")).areas = st0.areas) :=
  ⟨rfl,
   c5_platform_strategy_and_atomic_construction.1 W0 st0 _ rfl,
   c5_platform_strategy_and_atomic_construction.2.1 W0 st0 _ (Val.s "windows") rfl
     (by decide) (by decide) (by decide),
   rfl,
   c5_platform_strategy_and_atomic_construction.2.2 W0 st0 [] _ _ rfl⟩

/-- C7: a second `quit_driver(h)` issued after a completed `quit_driver(h)`
fails with the not-found error and performs no second close of the raw
driver connection and no further registry mutation: the state after the
second call is the state after the first call with only the handler-entry
event appended — no `rawQuit` event and no dictionary change. -/
theorem c7_double_quit_safe (W : World) (s : St) (h al raw : Nat)
    (hreg : s.drivers.lookup h = some (al, raw))
    (hq : W.alQuitFail al = none) (hr : W.rawQuitFail raw = none) :
    ∃ s₁ : St,
      callTool W "quit_driver" [("driver_id", Val.n h)] s =
        ("Driver " ++ Nat.repr h ++ " closed successfully", s₁) ∧
      callTool W "quit_driver" [("driver_id", Val.n h)] s₁ =
        ("Error: " ++ ("Driver " ++ Nat.repr h ++ " not found."),
         s₁.emit (.enterHandler "quit_driver")) := by
  refine ⟨{ drivers := ddel h s.drivers,
            areas := s.areas.filter (fun q => ¬ q.2.driver = al),
            supply := s.supply,
            trace := s.trace ++ [.enterHandler "quit_driver", .engineQuit al, .rawQuit raw] },
          ?_, ?_⟩
  · simp [callTool, tryCallTool, quitDriverH, resolveDriver, hreg, hq, hr, Val.str,
          St.emit, List.lookup]
  · have h2 := notFound_quit W
      { drivers := ddel h s.drivers,
        areas := s.areas.filter (fun q => ¬ q.2.driver = al),
        supply := s.supply,
        trace := s.trace ++ [.enterHandler "quit_driver", .engineQuit al, .rawQuit raw] }
      h (lookup_ddel_self s.drivers h)
    unfold callTool
    rw [h2]
    rfl

/-- Witness for C7 at a concrete input: quitting driver 0 of `st1` twice. -/
theorem c7_double_quit_safe_witness :
    st1.drivers.lookup 0 = some (1, 2) ∧
    W0.alQuitFail 1 = none ∧ W0.rawQuitFail 2 = none ∧
    (∃ s₁ : St,
      callTool W0 "quit_driver" [("driver_id", Val.n 0)] st1 =
        ("Driver " ++ Nat.repr 0 ++ " closed successfully", s₁) ∧
      callTool W0 "quit_driver" [("driver_id", Val.n 0)] s₁ =
        ("Error: " ++ ("Driver " ++ Nat.repr 0 ++ " not found."),
         s₁.emit (.enterHandler "quit_driver"))) :=
  ⟨rfl, rfl, rfl, c7_double_quit_safe W0 st1 0 1 2 rfl rfl rfl⟩

/-- C10: a failed verification is reported asymmetrically at the two scopes.
When the engine raises `AssertionError` from `check` on a driver handle, the
handler catches it and returns the normal payload
`Check finished: ...\nResult: False\nExplanation: ...`; when it raises the
same failure from `area_check` on an area handle, the exception propagates
out of the handler and the dispatcher renders it as an `Error: ...`
payload. -/
theorem c10_check_asymmetry (W : World) (s : St) (h al raw aid : Nat) (a : Area)
    (stmt m mm : String)
    (hd : s.drivers.lookup h = some (al, raw)) (ha : s.areas.lookup aid = some a)
    (hc : W.checkRes al stmt (Val.b false) = .error (.assertionError m))
    (hac : W.areaCheckRes a stmt (Val.b false) = .error (.assertionError mm)) :
    callTool W "check" [("driver_id", Val.n h), ("statement", Val.s stmt)] s =
      ("Check finished: " ++ stmt ++ "\nResult: False\nExplanation: " ++ m,
       (s.emit (.enterHandler "check")).emit (.engineCheck al stmt (Val.b false))) ∧
    callTool W "area_check" [("area_id", Val.n aid), ("statement", Val.s stmt)] s =
      ("Error: " ++ mm,
       (s.emit (.enterHandler "area_check")).emit (.areaCheck a stmt (Val.b false))) := by
  constructor
  · simp [callTool, tryCallTool, alumniumCheckH, resolveDriver, hd, hc, Val.str,
          St.emit, List.lookup]
  · simp [callTool, tryCallTool, areaCheckH, resolveArea, ha, hac, Val.str, Exc.str,
          St.emit, List.lookup]

/-- Witness for C10 at a concrete input: in the world whose verification
calls raise `AssertionError`, `check` on driver 0 of `st1` returns the
`Result: False` payload while `area_check` on area 3 returns an `Error:`
payload. -/
theorem c10_check_asymmetry_witness :
    st1.drivers.lookup 0 = some (1, 2) ∧
    st1.areas.lookup 3 = some ⟨1, "header"⟩ ∧
    Wassert.checkRes 1 "title ok" (Val.b false) = .error (.assertionError "statement is false") ∧
    Wassert.areaCheckRes ⟨1, "header"⟩ "title ok" (Val.b false) =
      .error (.assertionError "statement is false") ∧
    (callTool Wassert "check" [("driver_id", Val.n 0), ("statement", Val.s "title ok")] st1 =
      ("Check finished: " ++ "title ok" ++ "\nResult: False\nExplanation: " ++ "statement is false",
       (st1.emit (.enterHandler "check")).emit (.engineCheck 1 "title ok" (Val.b false))) ∧
    callTool Wassert "area_check" [("area_id", Val.n 3), ("statement", Val.s "title ok")] st1 =
      ("Error: " ++ "statement is false",
       (st1.emit (.enterHandler "area_check")).emit (.areaCheck ⟨1, "header"⟩ "title ok" (Val.b false)))) :=
  ⟨rfl, rfl, rfl, rfl,
   c10_check_asymmetry Wassert st1 0 1 2 3 ⟨1, "header"⟩ "title ok"
     "statement is false" "statement is false" rfl rfl rfl rfl⟩

/-- C4 counterexample: the claim says a call missing a required argument is
rejected with a `MissingArgument` error in the dispatcher's validation step
before any handler logic runs. Dispatching `start_driver` with no arguments
refutes this: the trace of the failing dispatch records that control was
transferred into the handler (the rejection is the handler's own `KeyError`
at its first read of `args["platform"]`, there being no validation step in
`call_tool`), and the payload is the rendered `KeyError` — the quoted field
name — rather than a descriptive missing-argument message. -/
theorem c4_no_dispatcher_validation :
    (callTool W0 "start_driver" [] st0).1 = "Error: " ++ (Exc.keyError "platform").str ∧
    (callTool W0 "start_driver" [] st0).2.trace = [Event.enterHandler "start_driver"] :=
  ⟨rfl, rfl⟩

/-- C4 as amended: for every tool in the catalogue and every argument
mapping in which a required argument of that tool is absent, dispatch fails
with a `KeyError` naming the first missing field (rendered by the dispatcher
as `Error: ` followed by the quoted field name); the rejection arises inside
the handler at its first read of the missing argument — there is no separate
dispatcher validation step — but still before any side-effecting call on the
driver or automation engine, and the registries are unchanged (the resulting
state is the input state with only the handler-entry event appended). -/
theorem c4_missing_argument_keyerror (W : World) (s : St) (args : Args) (t : ToolDef)
    (ht : t ∈ listTools) (f : String)
    (hf : firstMissing t.required args = some f) :
    tryCallTool W t.name args s = (.error (.keyError f), s.emit (.enterHandler t.name)) := by
  simp only [listTools, List.mem_cons, List.not_mem_nil, or_false] at ht
  rcases ht with rfl|rfl|rfl|rfl|rfl|rfl|rfl|rfl|rfl|rfl|rfl
  · cases h1 : args.lookup "platform" with
    | none =>
      simp [firstMissing, List.find?, h1] at hf
      subst hf
      simp [tryCallTool, startDriverH, h1, St.emit]
    | some v => simp [firstMissing, List.find?, h1] at hf
  · cases h1 : args.lookup "driver_id" with
    | none =>
      simp [firstMissing, List.find?, h1] at hf
      subst hf
      simp [tryCallTool, alumniumDoH, h1, St.emit]
    | some v =>
      cases h2 : args.lookup "goal" with
      | none =>
        simp [firstMissing, List.find?, h1, h2] at hf
        subst hf
        simp [tryCallTool, alumniumDoH, h1, h2, St.emit]
      | some w => simp [firstMissing, List.find?, h1, h2] at hf
  · cases h1 : args.lookup "driver_id" with
    | none =>
      simp [firstMissing, List.find?, h1] at hf
      subst hf
      simp [tryCallTool, alumniumCheckH, h1, St.emit]
    | some v =>
      cases h2 : args.lookup "statement" with
      | none =>
        simp [firstMissing, List.find?, h1, h2] at hf
        subst hf
        simp [tryCallTool, alumniumCheckH, h1, h2, St.emit]
      | some w => simp [firstMissing, List.find?, h1, h2] at hf
  · cases h1 : args.lookup "driver_id" with
    | none =>
      simp [firstMissing, List.find?, h1] at hf
      subst hf
      simp [tryCallTool, alumniumGetH, h1, St.emit]
    | some v =>
      cases h2 : args.lookup "data" with
      | none =>
        simp [firstMissing, List.find?, h1, h2] at hf
        subst hf
        simp [tryCallTool, alumniumGetH, h1, h2, St.emit]
      | some w => simp [firstMissing, List.find?, h1, h2] at hf
  · cases h1 : args.lookup "driver_id" with
    | none =>
      simp [firstMissing, List.find?, h1] at hf
      subst hf
      simp [tryCallTool, alumniumAreaH, h1, St.emit]
    | some v =>
      cases h2 : args.lookup "description" with
      | none =>
        simp [firstMissing, List.find?, h1, h2] at hf
        subst hf
        simp [tryCallTool, alumniumAreaH, h1, h2, St.emit]
      | some w => simp [firstMissing, List.find?, h1, h2] at hf
  · cases h1 : args.lookup "area_id" with
    | none =>
      simp [firstMissing, List.find?, h1] at hf
      subst hf
      simp [tryCallTool, areaDoH, h1, St.emit]
    | some v =>
      cases h2 : args.lookup "goal" with
      | none =>
        simp [firstMissing, List.find?, h1, h2] at hf
        subst hf
        simp [tryCallTool, areaDoH, h1, h2, St.emit]
      | some w => simp [firstMissing, List.find?, h1, h2] at hf
  · cases h1 : args.lookup "area_id" with
    | none =>
      simp [firstMissing, List.find?, h1] at hf
      subst hf
      simp [tryCallTool, areaCheckH, h1, St.emit]
    | some v =>
      cases h2 : args.lookup "statement" with
      | none =>
        simp [firstMissing, List.find?, h1, h2] at hf
        subst hf
        simp [tryCallTool, areaCheckH, h1, h2, St.emit]
      | some w => simp [firstMissing, List.find?, h1, h2] at hf
  · cases h1 : args.lookup "area_id" with
    | none =>
      simp [firstMissing, List.find?, h1] at hf
      subst hf
      simp [tryCallTool, areaGetH, h1, St.emit]
    | some v =>
      cases h2 : args.lookup "data" with
      | none =>
        simp [firstMissing, List.find?, h1, h2] at hf
        subst hf
        simp [tryCallTool, areaGetH, h1, h2, St.emit]
      | some w => simp [firstMissing, List.find?, h1, h2] at hf
  · cases h1 : args.lookup "driver_id" with
    | none =>
      simp [firstMissing, List.find?, h1] at hf
      subst hf
      simp [tryCallTool, getAccessibilityTreeH, h1, St.emit]
    | some v => simp [firstMissing, List.find?, h1] at hf
  · cases h1 : args.lookup "driver_id" with
    | none =>
      simp [firstMissing, List.find?, h1] at hf
      subst hf
      simp [tryCallTool, quitDriverH, h1, St.emit]
    | some v => simp [firstMissing, List.find?, h1] at hf
  · cases h1 : args.lookup "driver_id" with
    | none =>
      simp [firstMissing, List.find?, h1] at hf
      subst hf
      simp [tryCallTool, saveCacheH, h1, St.emit]
    | some v => simp [firstMissing, List.find?, h1] at hf

/-- Witness for the amended C4 at a concrete input: dispatching
`quit_driver` with an empty argument mapping fails with
`KeyError("driver_id")` and only the handler-entry event is recorded. -/
theorem c4_missing_argument_keyerror_witness :
    (⟨"quit_driver", "Close browser/app and cleanup driver resources.",
      ["driver_id"], ["driver_id"]⟩ : ToolDef) ∈ listTools ∧
    firstMissing ["driver_id"] [] = some "driver_id" ∧
    tryCallTool W0 "quit_driver" [] st0 =
      (.error (.keyError "driver_id"), st0.emit (.enterHandler "quit_driver")) :=
  ⟨by decide, rfl,
   c4_missing_argument_keyerror W0 st0 []
     ⟨"quit_driver", "Close browser/app and cleanup driver resources.",
      ["driver_id"], ["driver_id"]⟩ (by decide) "driver_id" rfl⟩

/-- C1: for a registered driver handle `h` (whose engine-release and
raw-close calls succeed), `quit_driver(h)` asks the automation engine to
release its state and closes the raw driver connection (the trace gains
exactly the engine-quit and raw-quit events, in that order), evicts every
Area whose parent is that DriverSession (the area dictionary becomes its
filtration by parents other than `al`) together with the DriverSession
itself, in the single atomic state transition of the handler; afterwards
every operation referencing `h`, and every operation referencing an area
handle `aid` previously derived from `h`, fails with the not-found error. -/
theorem c1_quit_cascading_teardown (W : World) (s : St) (h al raw aid : Nat) (a : Area)
    (g sv dat descv ag asv adat : Val)
    (hreg : s.drivers.lookup h = some (al, raw))
    (hnd : (s.areas.map Prod.fst).Nodup)
    (hq : W.alQuitFail al = none) (hr : W.rawQuitFail raw = none)
    (hal : s.areas.lookup aid = some a) (hpar : a.driver = al) :
    ∃ s₁ : St,
      callTool W "quit_driver" [("driver_id", Val.n h)] s =
        ("Driver " ++ Nat.repr h ++ " closed successfully", s₁) ∧
      s₁.trace = s.trace ++ [.enterHandler "quit_driver", .engineQuit al, .rawQuit raw] ∧
      s₁.areas = s.areas.filter (fun q => ¬ q.2.driver = al) ∧
      s₁.drivers = ddel h s.drivers ∧
      s₁.drivers.lookup h = none ∧
      s₁.areas.lookup aid = none ∧
      tryCallTool W "do" [("driver_id", Val.n h), ("goal", g)] s₁ =
        (.error (.valueError ("Driver " ++ Nat.repr h ++ " not found. Call alumnium_start_driver first.")),
         s₁.emit (.enterHandler "do")) ∧
      tryCallTool W "check" [("driver_id", Val.n h), ("statement", sv)] s₁ =
        (.error (.valueError ("Driver " ++ Nat.repr h ++ " not found.")),
         s₁.emit (.enterHandler "check")) ∧
      tryCallTool W "get" [("driver_id", Val.n h), ("data", dat)] s₁ =
        (.error (.valueError ("Driver " ++ Nat.repr h ++ " not found.")),
         s₁.emit (.enterHandler "get")) ∧
      tryCallTool W "area" [("driver_id", Val.n h), ("description", descv)] s₁ =
        (.error (.valueError ("Driver " ++ Nat.repr h ++ " not found.")),
         s₁.emit (.enterHandler "area")) ∧
      tryCallTool W "get_accessibility_tree" [("driver_id", Val.n h)] s₁ =
        (.error (.valueError ("Driver " ++ Nat.repr h ++ " not found.")),
         s₁.emit (.enterHandler "get_accessibility_tree")) ∧
      tryCallTool W "quit_driver" [("driver_id", Val.n h)] s₁ =
        (.error (.valueError ("Driver " ++ Nat.repr h ++ " not found.")),
         s₁.emit (.enterHandler "quit_driver")) ∧
      tryCallTool W "save_cache" [("driver_id", Val.n h)] s₁ =
        (.error (.valueError ("Driver " ++ Nat.repr h ++ " not found.")),
         s₁.emit (.enterHandler "save_cache")) ∧
      tryCallTool W "area_do" [("area_id", Val.n aid), ("goal", ag)] s₁ =
        (.error (.valueError ("Area " ++ Nat.repr aid ++ " not found. Call alumnium_area first.")),
         s₁.emit (.enterHandler "area_do")) ∧
      tryCallTool W "area_check" [("area_id", Val.n aid), ("statement", asv)] s₁ =
        (.error (.valueError ("Area " ++ Nat.repr aid ++ " not found.")),
         s₁.emit (.enterHandler "area_check")) ∧
      tryCallTool W "area_get" [("area_id", Val.n aid), ("data", adat)] s₁ =
        (.error (.valueError ("Area " ++ Nat.repr aid ++ " not found.")),
         s₁.emit (.enterHandler "area_get")) := by
  have hdel : (ddel h s.drivers).lookup h = none := lookup_ddel_self s.drivers h
  have hfil : (s.areas.filter (fun q => ¬ q.2.driver = al)).lookup aid = none :=
    lookup_filter_eq_none _ hnd hal (by simp [hpar])
  refine ⟨{ drivers := ddel h s.drivers,
            areas := s.areas.filter (fun q => ¬ q.2.driver = al),
            supply := s.supply,
            trace := s.trace ++ [.enterHandler "quit_driver", .engineQuit al, .rawQuit raw] },
          ?_, rfl, rfl, rfl, hdel, hfil,
          notFound_do W _ h g hdel, notFound_check W _ h sv hdel,
          notFound_get W _ h dat hdel, notFound_area W _ h descv hdel,
          notFound_tree W _ h hdel, notFound_quit W _ h hdel,
          notFound_save W _ h hdel,
          notFound_areaDo W _ aid ag hfil, notFound_areaCheck W _ aid asv hfil,
          notFound_areaGet W _ aid adat hfil⟩
  simp [callTool, tryCallTool, quitDriverH, resolveDriver, hreg, hq, hr, Val.str,
        St.emit, List.lookup]

/-- Witness for C1 at a concrete input: quitting driver 0 of `st1` releases
the engine and closes the raw connection, evicts area 3 (derived from that
driver) together with the session, and every follow-up operation on handle 0
or area 3 fails with the not-found error. -/
theorem c1_quit_cascading_teardown_witness :
    st1.drivers.lookup 0 = some (1, 2) ∧
    (st1.areas.map Prod.fst).Nodup ∧
    W0.alQuitFail 1 = none ∧ W0.rawQuitFail 2 = none ∧
    st1.areas.lookup 3 = some ⟨1, "header"⟩ ∧
    (Area.mk 1 "header").driver = 1 ∧
    (∃ s₁ : St,
      callTool W0 "quit_driver" [("driver_id", Val.n 0)] st1 =
        ("Driver " ++ Nat.repr 0 ++ " closed successfully", s₁) ∧
      s₁.trace = st1.trace ++ [.enterHandler "quit_driver", .engineQuit 1, .rawQuit 2] ∧
      s₁.areas = st1.areas.filter (fun q => ¬ q.2.driver = 1) ∧
      s₁.drivers = ddel 0 st1.drivers ∧
      s₁.drivers.lookup 0 = none ∧
      s₁.areas.lookup 3 = none ∧
      tryCallTool W0 "do" [("driver_id", Val.n 0), ("goal", Val.s "click")] s₁ =
        (.error (.valueError ("Driver " ++ Nat.repr 0 ++ " not found. Call alumnium_start_driver first.")),
         s₁.emit (.enterHandler "do")) ∧
      tryCallTool W0 "check" [("driver_id", Val.n 0), ("statement", Val.s "ok")] s₁ =
        (.error (.valueError ("Driver " ++ Nat.repr 0 ++ " not found.")),
         s₁.emit (.enterHandler "check")) ∧
      tryCallTool W0 "get" [("driver_id", Val.n 0), ("data", Val.s "count")] s₁ =
        (.error (.valueError ("Driver " ++ Nat.repr 0 ++ " not found.")),
         s₁.emit (.enterHandler "get")) ∧
      tryCallTool W0 "area" [("driver_id", Val.n 0), ("description", Val.s "nav")] s₁ =
        (.error (.valueError ("Driver " ++ Nat.repr 0 ++ " not found.")),
         s₁.emit (.enterHandler "area")) ∧
      tryCallTool W0 "get_accessibility_tree" [("driver_id", Val.n 0)] s₁ =
        (.error (.valueError ("Driver " ++ Nat.repr 0 ++ " not found.")),
         s₁.emit (.enterHandler "get_accessibility_tree")) ∧
      tryCallTool W0 "quit_driver" [("driver_id", Val.n 0)] s₁ =
        (.error (.valueError ("Driver " ++ Nat.repr 0 ++ " not found.")),
         s₁.emit (.enterHandler "quit_driver")) ∧
      tryCallTool W0 "save_cache" [("driver_id", Val.n 0)] s₁ =
        (.error (.valueError ("Driver " ++ Nat.repr 0 ++ " not found.")),
         s₁.emit (.enterHandler "save_cache")) ∧
      tryCallTool W0 "area_do" [("area_id", Val.n 3), ("goal", Val.s "click")] s₁ =
        (.error (.valueError ("Area " ++ Nat.repr 3 ++ " not found. Call alumnium_area first.")),
         s₁.emit (.enterHandler "area_do")) ∧
      tryCallTool W0 "area_check" [("area_id", Val.n 3), ("statement", Val.s "ok")] s₁ =
        (.error (.valueError ("Area " ++ Nat.repr 3 ++ " not found.")),
         s₁.emit (.enterHandler "area_check")) ∧
      tryCallTool W0 "area_get" [("area_id", Val.n 3), ("data", Val.s "count")] s₁ =
        (.error (.valueError ("Area " ++ Nat.repr 3 ++ " not found.")),
         s₁.emit (.enterHandler "area_get"))) :=
  ⟨rfl, by decide, rfl, rfl, rfl, rfl,
   c1_quit_cascading_teardown W0 st1 0 1 2 3 ⟨1, "header"⟩
     (Val.s "click") (Val.s "ok") (Val.s "count") (Val.s "nav")
     (Val.s "click") (Val.s "ok") (Val.s "count")
     rfl (by decide) rfl rfl rfl rfl⟩

/-! ### Fresh-handle lemmas for registration -/

lemma lookup_dinsert_self {α : Type} {l : List (Nat × α)} {k : Nat} (v : α)
    (h : ∀ q ∈ l, q.1 ≠ k) : (dinsert k v l).lookup k = some v := by
  rw [dinsert_eq_append _ h]
  exact lookup_append_single _ h

lemma countP_dinsert_self {α : Type} {l : List (Nat × α)} {k : Nat} (v : α)
    (h : ∀ q ∈ l, q.1 ≠ k) : (dinsert k v l).countP (fun q => q.1 = k) = 1 := by
  rw [dinsert_eq_append _ h]
  exact countP_append_single _ h

lemma finishStart_eq (W : World) (pv : Val) (raw : Nat) (t : St)
    (hk : ∀ q ∈ t.drivers, q.1 < t.supply) :
    finishStart W pv raw t =
      (.ok ("Driver started successfully. driver_id: " ++ Nat.repr (t.supply + 1) ++ "\nPlatform: "
          ++ pv.str ++ "\nModel: " ++ W.provider ++ "/" ++ W.modelName),
       { t with supply := t.supply + 1 + 1,
                drivers := t.drivers ++ [(t.supply + 1, (t.supply, raw))] }) := by
  have hne : ∀ q ∈ t.drivers, q.1 ≠ t.supply + 1 :=
    fun q hq => Nat.ne_of_lt (Nat.lt_succ_of_lt (hk q hq))
  simp [finishStart, dinsert_eq_append _ hne]

lemma start_success_spec (W : World) (pv : Val) (raw : Nat) (s t : St) (p : String) (s' : St)
    (hdr : t.drivers = s.drivers) (hsup : s.supply ≤ t.supply)
    (hWF : s.WF)
    (he : finishStart W pv raw t = (.ok p, s')) :
    ∃ hd al rw, s.drivers.lookup hd = none ∧ s.areas.lookup hd = none ∧
      s'.drivers.lookup hd = some (al, rw) ∧
      s'.drivers.countP (fun q => q.1 = hd) = 1 := by
  obtain ⟨hk, hk2, -, -⟩ := hWF
  have hkt : ∀ q ∈ t.drivers, q.1 < t.supply := by
    rw [hdr]; exact fun q hq => lt_of_lt_of_le (hk q hq) hsup
  rw [finishStart_eq W pv raw t hkt] at he
  simp only [Prod.mk.injEq, Except.ok.injEq] at he
  obtain ⟨hp, rfl⟩ := he
  have hne : ∀ q ∈ t.drivers, q.1 ≠ t.supply + 1 :=
    fun q hq => Nat.ne_of_lt (Nat.lt_succ_of_lt (hkt q hq))
  refine ⟨t.supply + 1, t.supply, raw, ?_, ?_, ?_, ?_⟩
  · exact lookup_none_of_forall (fun q hq => by
      rw [← hdr] at hq
      exact hne q hq)
  · exact lookup_none_of_forall (fun q hq =>
      Nat.ne_of_lt (Nat.lt_succ_of_lt (lt_of_lt_of_le (hk2 q hq) hsup)))
  · exact lookup_append_single _ hne
  · exact countP_append_single _ hne

/-- C6: in a well-formed state (all registered handles below the supply,
no duplicate keys), every successful `start_driver` call registers its
DriverSession under a freshly minted handle that collides with no live
handle of either registry; the handle resolves to exactly one DriverSession
entry (lookup finds it and it occurs exactly once, so repeated lookups with
the same handle return the same resource); and the same freshness holds for
every handle minted by a successful `area` call. -/
theorem c6_fresh_handles_resolve_uniquely :
    (∀ (W : World) (s : St) (args : Args) (p : String) (s' : St),
       s.WF → tryCallTool W "start_driver" args s = (.ok p, s') →
       ∃ hd al rw, s.drivers.lookup hd = none ∧ s.areas.lookup hd = none ∧
         s'.drivers.lookup hd = some (al, rw) ∧
         s'.drivers.countP (fun q => q.1 = hd) = 1) ∧
    (∀ (W : World) (s : St) (args : Args) (p : String) (s' : St),
       s.WF → tryCallTool W "area" args s = (.ok p, s') →
       ∃ ad ar, s.areas.lookup ad = none ∧ s.drivers.lookup ad = none ∧
         s'.areas.lookup ad = some ar ∧
         s'.areas.countP (fun q => q.1 = ad) = 1) := by
  constructor
  · intro W s args p s' hWF he
    have h0 : tryCallTool W "start_driver" args s = startDriverH W args s := rfl
    rw [h0] at he
    unfold startDriverH at he
    repeat' split at he
    all_goals try (cases hu : List.lookup "url" args <;> simp only [hu] at he)
    all_goals try (repeat' split at he)
    all_goals
      first
        | (exact start_success_spec W _ _ s _ p s' (by rfl) (by exact Nat.le_succ _) hWF he)
        | (exfalso; revert he; simp)
  · intro W s args p s' hWF he
    obtain ⟨hk, hk2, -, -⟩ := hWF
    have hne : ∀ q ∈ s.areas, q.1 ≠ s.supply := fun q hq => Nat.ne_of_lt (hk2 q hq)
    have h0 : tryCallTool W "area" args s = alumniumAreaH W args s := rfl
    rw [h0] at he
    unfold alumniumAreaH at he
    cases h1 : List.lookup "driver_id" args with
    | none => simp [h1] at he
    | some dv =>
      simp only [h1] at he
      cases h2 : List.lookup "description" args with
      | none => simp [h2] at he
      | some descv =>
        simp only [h2] at he
        cases hres : resolveDriver (s.emit (Event.enterHandler "area")) dv with
        | none => simp [hres] at he
        | some trip =>
          obtain ⟨hd0, al, rw0⟩ := trip
          simp only [hres] at he
          cases haf : W.areaFail al descv.str with
          | some e => simp [haf] at he
          | none =>
            simp only [haf] at he
            simp only [Prod.mk.injEq, Except.ok.injEq] at he
            obtain ⟨hp, rfl⟩ := he
            exact ⟨s.supply, _,
              lookup_none_of_forall hne,
              lookup_none_of_forall (fun q hq => Nat.ne_of_lt (hk q hq)),
              lookup_dinsert_self _ hne,
              countP_dinsert_self _ hne⟩

/-- Witness for C6 at concrete inputs: starting a chromium driver on the
empty state mints fresh handle 2, and creating an area on `st1` mints fresh
handle 4; each resolves to exactly one entry. -/
theorem c6_fresh_handles_resolve_uniquely_witness :
    st0.WF ∧
    tryCallTool W0 "start_driver" [("platform", Val.s "chromium")] st0 =
      (.ok "Driver started successfully. driver_id: 2\nPlatform: chromium\nModel: anthropic/claude-haiku-4-5-20251001",
       ⟨[(2, (1, 0))], [], 3, [.enterHandler "start_driver", .chromeConstruct]⟩) ∧
    (∃ hd al rw, st0.drivers.lookup hd = none ∧ st0.areas.lookup hd = none ∧
       (⟨[(2, (1, 0))], [], 3, [.enterHandler "start_driver", .chromeConstruct]⟩ : St).drivers.lookup hd
         = some (al, rw) ∧
       (⟨[(2, (1, 0))], [], 3, [.enterHandler "start_driver", .chromeConstruct]⟩ : St).drivers.countP
         (fun q => q.1 = hd) = 1) ∧
    st1.WF ∧
    tryCallTool W0 "area" [("driver_id", Val.n 0), ("description", Val.s "nav")] st1 =
      (.ok "Area created successfully. area_id: 4\nDescription: nav",
       ⟨[(0, (1, 2))], [(3, ⟨1, "header"⟩), (4, ⟨1, "nav"⟩)], 5,
        [.enterHandler "area", .engineArea 1 "nav"]⟩) ∧
    (∃ ad ar, st1.areas.lookup ad = none ∧ st1.drivers.lookup ad = none ∧
       (⟨[(0, (1, 2))], [(3, ⟨1, "header"⟩), (4, ⟨1, "nav"⟩)], 5,
         [.enterHandler "area", .engineArea 1 "nav"]⟩ : St).areas.lookup ad = some ar ∧
       (⟨[(0, (1, 2))], [(3, ⟨1, "header"⟩), (4, ⟨1, "nav"⟩)], 5,
         [.enterHandler "area", .engineArea 1 "nav"]⟩ : St).areas.countP
         (fun q => q.1 = ad) = 1) :=
  ⟨by decide, rfl,
   c6_fresh_handles_resolve_uniquely.1 W0 st0 [("platform", Val.s "chromium")] _ _ (by decide) rfl,
   by decide, rfl,
   c6_fresh_handles_resolve_uniquely.2 W0 st1 [("driver_id", Val.n 0), ("description", Val.s "nav")] _ _ (by decide) rfl⟩
